import Mathlib

/-!
Shallow embedding of the habitat-operator controller
(`pkg/habitat/controller/controller.go`): the group reconciler
(`onAdd`, `onUpdate`, `onDelete`), the leader election and publication
handlers (`onPodUpdate`, `onPodDelete`, `writeLeaderIP`), the record
constructors (`newConfigMap`, `configMapName`) and the constructor `New`.

Cluster state (pods, config maps, deployments) is modelled explicitly and
every handler returns the new state together with the trace of write
operations it issued against the cluster API.  A handler that would panic
in Go (out-of-range indexing) returns `none`.
-/

set_option autoImplicit false

/-- Go constant `peerFile = "peer-watch-file"` (controller.go line 41). -/
def peerFile : String := "peer-watch-file"

/-- Go `configMapName`: `fmt.Sprintf("%s-peer-file", sgName)`. -/
def configMapName (sgName : String) : String := sgName ++ "-peer-file"

/-- Go map indexing `m[k]` without the `, ok` form: returns the zero value
`""` when the key is absent. -/
def getD (m : List (String × String)) (k : String) : String :=
  match m.find? (fun kv => kv.1 == k) with
  | some kv => kv.2
  | none => ""

/-- Go map indexing `v, ok := m[k]`: `none` when the key is absent. -/
def getL (m : List (String × String)) (k : String) : Option String :=
  (m.find? (fun kv => kv.1 == k)).map (fun kv => kv.2)

/-- `metav1.OwnerReference` (the fields set by `newConfigMap`). -/
structure OwnerReference where
  apiVersion : String
  kind : String
  name : String
  uid : String
  deriving DecidableEq, Repr

/-- `apiv1.ConfigMap`: name, owner references and string data. -/
structure ConfigMap where
  name : String
  ownerReferences : List OwnerReference
  data : List (String × String)
  deriving DecidableEq, Repr

/-- `apiv1.Pod`: the fields the controller reads. -/
structure Pod where
  name : String
  ns : String
  labels : List (String × String)
  phase : String
  podIP : String
  deriving DecidableEq, Repr

/-- `apiv1.VolumeMount` (fields set in `onAdd`). -/
structure VolumeMount where
  name : String
  mountPath : String
  readOnly : Bool
  deriving DecidableEq, Repr

/-- `apiv1.KeyToPath`. -/
structure KeyToPath where
  key : String
  path : String
  deriving DecidableEq, Repr

/-- `apiv1.ConfigMapVolumeSource`: local object reference name and items. -/
structure ConfigMapVolumeSource where
  localName : String
  items : List KeyToPath
  deriving DecidableEq, Repr

/-- `apiv1.Volume` with an optional ConfigMap source. -/
structure Volume where
  name : String
  configMap : Option ConfigMapVolumeSource
  deriving DecidableEq, Repr

/-- `apiv1.Container` (fields set in `onAdd`). -/
structure Container where
  name : String
  image : String
  args : List String
  volumeMounts : List VolumeMount
  deriving DecidableEq, Repr

/-- `apiv1.PodTemplateSpec` (fields set in `onAdd`). -/
structure PodTemplateSpec where
  labels : List (String × String)
  containers : List Container
  volumes : List Volume
  deriving DecidableEq, Repr

/-- `appsv1beta1.Deployment` as constructed by `onAdd`: name, replica
count and pod template.  The replica count is modelled as a plain natural
number; the Go source converts `sg.Spec.Count` with `int32(...)` and the
spec's data model declares the count a positive integer. -/
structure Deployment where
  name : String
  replicas : Nat
  template : PodTemplateSpec
  deriving DecidableEq, Repr

/-- A config map stored in the cluster, with the namespace the client
call targeted. -/
structure CMEntry where
  ns : String
  cm : ConfigMap
  deriving DecidableEq, Repr

/-- A deployment stored in the cluster: target namespace, the UID the
API server generated at creation, and the object. -/
structure DepEntry where
  ns : String
  uid : String
  dep : Deployment
  deriving DecidableEq, Repr

/-- The cluster-API state the controller reads and writes. -/
structure ClusterState where
  pods : List Pod
  configMaps : List CMEntry
  deployments : List DepEntry
  uidCounter : Nat
  deriving DecidableEq, Repr

/-- `metav1.DeletionPropagation` values. -/
inductive DeletePolicy where
  | background
  | foreground
  | orphan
  deriving DecidableEq, Repr

/-- A write operation issued against the cluster API. -/
inductive Op where
  | createDeployment (ns : String) (d : Deployment) (uid : String)
  | createConfigMap (ns : String) (cm : ConfigMap)
  | updateConfigMap (ns : String) (cm : ConfigMap)
  | deleteDeployment (ns : String) (name : String) (policy : DeletePolicy)
  deriving DecidableEq, Repr

/-- The namespace a write operation targets. -/
def Op.nsOf : Op → String
  | .createDeployment ns _ _ => ns
  | .createConfigMap ns _ => ns
  | .updateConfigMap ns _ => ns
  | .deleteDeployment ns _ _ => ns

/-- Whether an operation is a ConfigMap create. -/
def Op.isCreateConfigMap : Op → Bool
  | .createConfigMap _ _ => true
  | _ => false

/-- `Get` of a config map by namespace and name. -/
def findConfigMap (st : ClusterState) (ns name : String) : Option ConfigMap :=
  (st.configMaps.find? (fun e => e.ns == ns && e.cm.name == name)).map (fun e => e.cm)

/-- `Get` of a deployment by namespace and name. -/
def findDeployment (st : ClusterState) (ns name : String) : Option DepEntry :=
  st.deployments.find? (fun e => e.ns == ns && e.dep.name == name)

/-- The UID the API server assigns to the next created object. -/
def genUID (st : ClusterState) : String := "uid-" ++ toString st.uidCounter

/-- `Create` of a deployment: fails when an object of that name already
exists in the namespace, otherwise stores it under a fresh UID and
returns that UID (the Go code reads it off the returned object as
`d.UID`). -/
def createDeployment (st : ClusterState) (ns : String) (d : Deployment) :
    Except String (ClusterState × String) :=
  if st.deployments.any (fun e => e.ns == ns && e.dep.name == d.name) then
    .error "deployments already exists"
  else
    .ok ({ st with
            deployments := st.deployments ++ [⟨ns, genUID st, d⟩],
            uidCounter := st.uidCounter + 1 },
         genUID st)

/-- `Create` of a config map: fails when an object of that name already
exists in the namespace. -/
def createConfigMap (st : ClusterState) (ns : String) (cm : ConfigMap) :
    Except String ClusterState :=
  if st.configMaps.any (fun e => e.ns == ns && e.cm.name == cm.name) then
    .error "configmaps already exists"
  else
    .ok { st with configMaps := st.configMaps ++ [⟨ns, cm⟩] }

/-- `Update` of a config map: replaces the stored object of the same
name in the namespace, fails when it does not exist. -/
def updateConfigMapIn (st : ClusterState) (ns : String) (cm : ConfigMap) :
    Option ClusterState :=
  if st.configMaps.any (fun e => e.ns == ns && e.cm.name == cm.name) then
    some { st with configMaps := st.configMaps.map (fun e =>
      if e.ns == ns && e.cm.name == cm.name then ⟨e.ns, cm⟩ else e) }
  else
    none

/-- Go `newConfigMap` (controller.go lines 410-427). -/
def newConfigMap (sgName : String) (parentUID : String) (ip : String) : ConfigMap :=
  { name := configMapName sgName
    ownerReferences := [
      { apiVersion := "extensions/v1beta1"
        kind := "Deployment"
        name := sgName
        uid := parentUID }]
    data := [(peerFile, ip)] }

/-- Modelled from the spec: the `crv1.Bind` declaration (embedded here as `BindDecl`) is not under
src/; §3 lists bind declarations as local bind name, referenced service
name, referenced peer group name. -/
structure BindDecl where
  name : String
  service : String
  group : String
  deriving DecidableEq, Repr

/-- Modelled from the spec: the `crv1.Habitat` part of the custom
resource spec is not under src/; controller.go reads
`sg.Spec.Habitat.Group` and §3 lists the peer group name and the bind
declarations. -/
structure Habitat where
  group : String
  bind : List BindDecl
  deriving DecidableEq, Repr

/-- Modelled from the spec: the `crv1.ServiceGroupSpec` declaration is
not under src/; controller.go reads `sg.Spec.Count` (a positive integer
per §3) and `sg.Spec.Image`. -/
structure ServiceGroupSpec where
  count : Nat
  image : String
  habitat : Habitat
  deriving DecidableEq, Repr

/-- Modelled from the spec: the `crv1.ServiceGroup` declaration is not
under src/; controller.go reads `sg.Name`, `sg.ObjectMeta.Namespace` and
`sg.Spec`. -/
structure ServiceGroup where
  name : String
  namespace_ : String
  spec : ServiceGroupSpec
  deriving DecidableEq, Repr

/-- Modelled from the spec: `validateCustomObject` is not under src/
(only its call site in `onAdd` is); §4.1: name non-empty, replica count
at least 1, image reference non-empty, each bind entry has non-empty
local name, referenced service and referenced group.  The returned error
identifies the offending field. -/
def validateCustomObject (sg : ServiceGroup) : Except String Unit :=
  if sg.name = "" then .error "name"
  else if sg.spec.count < 1 then .error "count"
  else if sg.spec.image = "" then .error "image"
  else if sg.spec.habitat.bind.any
      (fun b => b.name == "" || b.service == "" || b.group == "") then .error "bind"
  else .ok ()

/-- The effective peer group name resolved at the top of `onAdd`
(controller.go lines 143-146): the spec value, or `"default"` when the
spec value is empty. -/
def effectiveGroup (sg : ServiceGroup) : String :=
  if sg.spec.habitat.group ≠ "" then sg.spec.habitat.group else "default"

/-- The Deployment literal built in `onAdd` (controller.go lines
152-205). -/
def newDeployment (sg : ServiceGroup) : Deployment :=
  { name := sg.name
    replicas := sg.spec.count
    template :=
      { labels := [("habitat", "true"), ("service-group", sg.name)]
        containers := [
          { name := "habitat-service"
            image := sg.spec.image
            args := ["--group", effectiveGroup sg]
            volumeMounts := [
              { name := "config"
                mountPath := "/habitat-operator"
                readOnly := true }] }]
        volumes := [
          { name := "config"
            configMap := some
              { localName := configMapName sg.name
                items := [{ key := peerFile, path := "peer-ip" }] } }] } }

/-- Go `onAdd` (controller.go lines 121-224): validate, create the
Deployment in `apiv1.NamespaceDefault`, then create the peer-file
ConfigMap (empty leader address, owned by the created Deployment) in
`apiv1.NamespaceDefault`.  Validation or create failures are logged and
the event dropped. -/
def onAdd (st : ClusterState) (sg : ServiceGroup) : ClusterState × List Op :=
  match validateCustomObject sg with
  | .error _ => (st, [])
  | .ok _ =>
    let deployment := newDeployment sg
    match createDeployment st "default" deployment with
    | .error _ => (st, [])
    | .ok (st1, uid) =>
      let cm := newConfigMap sg.name uid ""
      let st2 :=
        match createConfigMap st1 "default" cm with
        | .error _ => st1
        | .ok s => s
      (st2, [Op.createDeployment "default" deployment uid,
             Op.createConfigMap "default" cm])

/-- Go `onDelete` (controller.go lines 232-258): delete the Deployment
named after the group, in the group's own namespace
(`sg.ObjectMeta.Namespace`), with `DeletePropagationBackground`; a
delete error is only logged.  The ConfigMap is not touched. -/
def onDelete (st : ClusterState) (sg : ServiceGroup) : ClusterState × List Op :=
  let deps := st.deployments.filter
    (fun e => !(e.ns == sg.namespace_ && e.dep.name == sg.name))
  ({ st with deployments := deps },
   [Op.deleteDeployment sg.namespace_ sg.name DeletePolicy.background])

/-- The fall-through tail of `writeLeaderIP` (controller.go lines
396-407): fetch the Deployment for the owner reference UID, build the
updated ConfigMap via `newConfigMap` and issue the Update. -/
def writeLeaderUpdate (st : ClusterState) (sgName ip : String) :
    Except String (ClusterState × List Op) :=
  match findDeployment st "default" sgName with
  | none => .error "deployment get failed"
  | some d =>
    let updatedCM := newConfigMap sgName d.uid ip
    match updateConfigMapIn st "default" updatedCM with
    | none => .error "configmap update failed"
    | some st2 => .ok (st2, [Op.updateConfigMap "default" updatedCM])

/-- Go `writeLeaderIP` (controller.go lines 363-408): read the group's
ConfigMap; if the recorded leader is non-empty and equal to this pod's
IP, or non-empty with a Running pod still at that IP in the default
namespace, do nothing; otherwise write this pod's IP as leader. -/
def writeLeaderIP (st : ClusterState) (pod : Pod) :
    Except String (ClusterState × List Op) :=
  let sgName := getD pod.labels "service-group"
  let cmName := configMapName sgName
  let ip := pod.podIP
  match findConfigMap st "default" cmName with
  | none => .error "configmap get failed"
  | some cm =>
    let currentLeaderIP := getD cm.data peerFile
    if currentLeaderIP ≠ "" then
      if ip = currentLeaderIP then .ok (st, [])
      else
        let podList := st.pods.filter (fun p =>
          p.ns == "default" && p.podIP == currentLeaderIP && p.phase == "Running")
        if podList.length > 0 then .ok (st, [])
        else writeLeaderUpdate st sgName ip
    else writeLeaderUpdate st sgName ip

/-- Go `onPodUpdate` (controller.go lines 284-305): pods not in phase
Running are ignored; a `writeLeaderIP` failure is logged and the event
dropped. -/
def onPodUpdate (st : ClusterState) (pod : Pod) : ClusterState × List Op :=
  if pod.phase ≠ "Running" then (st, [])
  else
    match writeLeaderIP st pod with
    | .ok r => r
    | .error _ => (st, [])

/-- Go `onPodDelete` (controller.go lines 309-359): look up the group's
ConfigMap; if the deleted pod's IP is not the recorded leader, no-op;
otherwise list the Running pods of the default namespace (field selector
`status.phase=Running` only — no label selector) and promote the first
one via `writeLeaderIP`.  `podList.Items[0]` on an empty list is a Go
runtime panic, modelled as `none`. -/
def onPodDelete (st : ClusterState) (pod : Pod) : Option (ClusterState × List Op) :=
  match getL pod.labels "service-group" with
  | none => some (st, [])
  | some sgName =>
    let cmName := configMapName sgName
    match findConfigMap st "default" cmName with
    | none => some (st, [])
    | some cm =>
      let currentLeaderIP := getD cm.data peerFile
      let deletedPodIP := pod.podIP
      if deletedPodIP ≠ currentLeaderIP then some (st, [])
      else
        let podList := st.pods.filter (fun p =>
          p.ns == "default" && p.phase == "Running")
        match podList with
        | [] => none
        | newLeader :: _ =>
          match writeLeaderIP st newLeader with
          | .ok r => some r
          | .error _ => some (st, [])

/-- Stand-in for the `*rest.RESTClient` pointer target; `Option` models
the pointer, `none` is nil. -/
structure RESTClient where
  id : Nat
  deriving DecidableEq, Repr

/-- Stand-in for the `*kubernetes.Clientset` pointer target. -/
structure Clientset where
  id : Nat
  deriving DecidableEq, Repr

/-- Stand-in for the `*runtime.Scheme` pointer target. -/
structure Scheme where
  id : Nat
  deriving DecidableEq, Repr

/-- Stand-in for the `log.Logger` interface value; `none` is nil. -/
structure Logger where
  id : Nat
  deriving DecidableEq, Repr

/-- Go `Config` (controller.go lines 49-53): three pointer fields. -/
structure Config where
  habitatClient : Option RESTClient
  kubernetesClientset : Option Clientset
  scheme : Option Scheme
  deriving DecidableEq, Repr

/-- Go `HabitatController` (controller.go lines 44-47). -/
structure HabitatController where
  config : Config
  logger : Option Logger
  deriving DecidableEq, Repr

/-- Go `New` (controller.go lines 55-75): reject a nil client, clientset,
scheme or logger, otherwise return the controller holding the given
config and logger. -/
def New (config : Config) (logger : Option Logger) :
    Except String HabitatController :=
  if config.habitatClient = none then
    .error "invalid controller config: no HabitatClient"
  else if config.kubernetesClientset = none then
    .error "invalid controller config: no KubernetesClientset"
  else if config.scheme = none then
    .error "invalid controller config: no Schema"
  else if logger = none then
    .error "invalid controller config: no logger"
  else
    .ok { config := config, logger := logger }

/-- Whether a `New` call succeeded. -/
def newOk (r : Except String HabitatController) : Bool :=
  match r with
  | .ok _ => true
  | .error _ => false

/-! ### Concrete scenario used by the evaluation and witness theorems -/

/-- The `db` service group of the spec's concrete failover scenario. -/
def sgDb : ServiceGroup :=
  { name := "db"
    namespace_ := "default"
    spec := { count := 3, image := "core/postgresql", habitat := { group := "db", bind := [] } } }

/-- The group's instance at the leader address `10.0.0.1`. -/
def podA : Pod :=
  { name := "db-0", ns := "default"
    labels := [("habitat", "true"), ("service-group", "db")]
    phase := "Running", podIP := "10.0.0.1" }

/-- A second Running instance of group `db`, at `10.0.0.2`. -/
def podB : Pod :=
  { name := "db-1", ns := "default"
    labels := [("habitat", "true"), ("service-group", "db")]
    phase := "Running", podIP := "10.0.0.2" }

/-- A Running pod in the default namespace that does not belong to the
group (it carries no labels at all). -/
def podStray : Pod :=
  { name := "other-0", ns := "default"
    labels := []
    phase := "Running", podIP := "10.0.0.9" }

/-- The group's PeerAddressRecord holding leader address `10.0.0.1`. -/
def dbRecord : CMEntry :=
  { ns := "default", cm := newConfigMap "db" "uid-0" "10.0.0.1" }

/-- The group's stored Deployment. -/
def dbDeployment : DepEntry :=
  { ns := "default", uid := "uid-0", dep := newDeployment sgDb }

/-- Cluster state for the C1 scenario: the leader at `10.0.0.1` has just
been deleted, a Running group member remains at `10.0.0.2`, and an
unrelated Running pod sits first in the default-namespace pod list. -/
def stC1 : ClusterState :=
  { pods := [podStray, podB]
    configMaps := [dbRecord]
    deployments := [dbDeployment]
    uidCounter := 1 }

/-- Cluster state for the C2 scenario: the leader at `10.0.0.1` has just
been deleted and no Running pod remains in the default namespace. -/
def stC2 : ClusterState :=
  { pods := []
    configMaps := [dbRecord]
    deployments := [dbDeployment]
    uidCounter := 1 }

/-- Cluster state for the C3 scenario: the recorded leader `10.0.0.1`
is alive and Running. -/
def stC3 : ClusterState :=
  { pods := [podA, podB]
    configMaps := [dbRecord]
    deployments := [dbDeployment]
    uidCounter := 1 }

/-- An empty cluster. -/
def stEmpty : ClusterState :=
  { pods := [], configMaps := [], deployments := [], uidCounter := 0 }

deriving instance DecidableEq for Except

/-- A group with a non-default namespace recorded in its metadata. -/
def sgStaging : ServiceGroup :=
  { name := "db"
    namespace_ := "staging"
    spec := { count := 3, image := "core/postgresql", habitat := { group := "db", bind := [] } } }

/-- A spec with replica count 0, rejected by validation. -/
def sgBadCount : ServiceGroup :=
  { name := "db"
    namespace_ := "default"
    spec := { count := 0, image := "core/postgresql", habitat := { group := "db", bind := [] } } }

/-- A full configuration for `New`. -/
def cfgFull : Config :=
  { habitatClient := some ⟨0⟩, kubernetesClientset := some ⟨0⟩, scheme := some ⟨0⟩ }

theorem newDeployment_name (sg : ServiceGroup) : (newDeployment sg).name = sg.name := rfl

/-- Helper: the write trace of a successful `onAdd`: one Deployment
create followed by one ConfigMap create, both in the default namespace,
the ConfigMap owned by the fresh Deployment UID and holding an empty
leader address. -/
theorem onAdd_trace (st : ClusterState) (sg : ServiceGroup)
    (hval : validateCustomObject sg = .ok ())
    (hfree : st.deployments.any
      (fun e => e.ns == "default" && e.dep.name == sg.name) = false) :
    (onAdd st sg).2
      = [Op.createDeployment "default" (newDeployment sg) (genUID st),
         Op.createConfigMap "default" (newConfigMap sg.name (genUID st) "")] := by
  have hfree2 : st.deployments.any
      (fun e => e.ns == "default" && e.dep.name == (newDeployment sg).name) = false := by
    simpa [newDeployment_name] using hfree
  simp only [onAdd, hval, createDeployment, hfree2, Bool.false_eq_true, if_false]

/-- C1: the claim says that when the instance-deleted event for the
recorded leader of a group is handled while another instance of that
group is Running, the record afterwards holds one of the group's
remaining Running addresses — never the old address `A` and never an
address outside the group.  Evaluating `onPodDelete` at the failing
input refutes this: group `db`'s record holds `10.0.0.1`, the deleted
pod `podA` owns that address, the group member `podB` is Running at
`10.0.0.2`, yet because the Running-pod query carries no group label
filter the unrelated pod `podStray` is selected, `writeLeaderIP` fails
on its empty group label, and the record still holds `10.0.0.1`. -/
theorem onPodDelete_foreign_pod_leaves_stale_leader :
    getD podA.labels "service-group" = "db"
    ∧ podA.podIP = "10.0.0.1"
    ∧ findConfigMap stC1 "default" (configMapName "db") = some dbRecord.cm
    ∧ getD dbRecord.cm.data peerFile = "10.0.0.1"
    ∧ podB ∈ stC1.pods
    ∧ getD podB.labels "service-group" = "db"
    ∧ podB.phase = "Running"
    ∧ podB.ns = "default"
    ∧ onPodDelete stC1 podA = some (stC1, []) := by decide

/-- C2: the claim says that when the instance-deleted event for the
recorded leader is handled and no Running instance remains, the handler
leaves the record as-is and completes without error.  Evaluating
`onPodDelete` at the failing input refutes this for the code:
`podList.Items[0]` is taken from the empty result list, a Go runtime
panic, modelled as `none`. -/
theorem onPodDelete_no_running_pod_panics :
    stC2.pods = []
    ∧ getD dbRecord.cm.data peerFile = podA.podIP
    ∧ onPodDelete stC2 podA = none := by decide

/-- C3: on a Running event, when the record's leader address is
non-empty, differs from this pod's address, and the query for Running
pods at the recorded address returns at least one result, `writeLeaderIP`
performs no write and succeeds, and `onPodUpdate` leaves the cluster
state unchanged with an empty write trace. -/
theorem writeLeaderIP_live_leader_not_usurped
    (st : ClusterState) (pod : Pod) (cm : ConfigMap)
    (hphase : pod.phase = "Running")
    (hcm : findConfigMap st "default"
      (configMapName (getD pod.labels "service-group")) = some cm)
    (hne : getD cm.data peerFile ≠ "")
    (hdiff : pod.podIP ≠ getD cm.data peerFile)
    (halive : (st.pods.filter (fun p =>
        p.ns == "default" && p.podIP == getD cm.data peerFile
          && p.phase == "Running")).length > 0) :
    writeLeaderIP st pod = .ok (st, []) ∧ onPodUpdate st pod = (st, []) := by
  have h1 : writeLeaderIP st pod = .ok (st, []) := by
    simp only [writeLeaderIP, hcm]
    rw [if_pos hne, if_neg hdiff, if_pos halive]
  exact ⟨h1, by simp [onPodUpdate, hphase, h1]⟩

/-- C3 witness: the recorded leader `10.0.0.1` is alive in `stC3`, and
the Running event for `podB` at `10.0.0.2` changes nothing. -/
theorem writeLeaderIP_live_leader_not_usurped_witness :
    writeLeaderIP stC3 podB = .ok (stC3, []) ∧ onPodUpdate stC3 podB = (stC3, []) :=
  writeLeaderIP_live_leader_not_usurped stC3 podB dbRecord.cm (by decide) (by decide)
    (by decide) (by decide) (by decide)

/-- C4: a Running event for a pod whose address already equals the
record's non-empty leader address produces no write: `writeLeaderIP`
returns without error and the state is unchanged, and `onPodUpdate`
leaves the cluster state unchanged with an empty write trace. -/
theorem writeLeaderIP_idempotent_reobservation
    (st : ClusterState) (pod : Pod) (cm : ConfigMap)
    (hphase : pod.phase = "Running")
    (hcm : findConfigMap st "default"
      (configMapName (getD pod.labels "service-group")) = some cm)
    (hne : getD cm.data peerFile ≠ "")
    (heq : pod.podIP = getD cm.data peerFile) :
    writeLeaderIP st pod = .ok (st, []) ∧ onPodUpdate st pod = (st, []) := by
  have h1 : writeLeaderIP st pod = .ok (st, []) := by
    simp only [writeLeaderIP, hcm]
    rw [if_pos hne, if_pos heq]
  exact ⟨h1, by simp [onPodUpdate, hphase, h1]⟩

/-- C4 witness: delivering the Running event for the already-recorded
leader `podA` a further time changes nothing. -/
theorem writeLeaderIP_idempotent_reobservation_witness :
    writeLeaderIP stC3 podA = .ok (stC3, []) ∧ onPodUpdate stC3 podA = (stC3, []) :=
  writeLeaderIP_idempotent_reobservation stC3 podA dbRecord.cm (by decide) (by decide)
    (by decide) (by decide)

/-- C5: for a group that passes validation and whose Deployment create
succeeds, `onAdd` issues exactly one ConfigMap create, for the record
named `<G>-peer-file`, with an empty leader address under the
`peer-watch-file` key, owned by the created Deployment's name and
freshly generated UID. -/
theorem onAdd_creates_empty_peer_record
    (st : ClusterState) (sg : ServiceGroup)
    (hval : validateCustomObject sg = .ok ())
    (hfree : st.deployments.any
      (fun e => e.ns == "default" && e.dep.name == sg.name) = false) :
    (onAdd st sg).2
      = [Op.createDeployment "default" (newDeployment sg) (genUID st),
         Op.createConfigMap "default" (newConfigMap sg.name (genUID st) "")]
    ∧ ((onAdd st sg).2.filter Op.isCreateConfigMap)
      = [Op.createConfigMap "default" (newConfigMap sg.name (genUID st) "")]
    ∧ (newConfigMap sg.name (genUID st) "").name = sg.name ++ "-peer-file"
    ∧ getD (newConfigMap sg.name (genUID st) "").data peerFile = ""
    ∧ (newConfigMap sg.name (genUID st) "").ownerReferences
      = [{ apiVersion := "extensions/v1beta1", kind := "Deployment",
           name := sg.name, uid := genUID st }] := by
  have ht := onAdd_trace st sg hval hfree
  refine ⟨ht, ?_, rfl, rfl, rfl⟩
  rw [ht]
  simp [Op.isCreateConfigMap]

/-- C5 witness: creating group `db` in an empty cluster issues the
Deployment create and exactly one ConfigMap create with an empty leader
address owned by the fresh UID. -/
theorem onAdd_creates_empty_peer_record_witness :
    (onAdd stEmpty sgDb).2
      = [Op.createDeployment "default" (newDeployment sgDb) (genUID stEmpty),
         Op.createConfigMap "default" (newConfigMap sgDb.name (genUID stEmpty) "")]
    ∧ ((onAdd stEmpty sgDb).2.filter Op.isCreateConfigMap)
      = [Op.createConfigMap "default" (newConfigMap sgDb.name (genUID stEmpty) "")]
    ∧ (newConfigMap sgDb.name (genUID stEmpty) "").name = sgDb.name ++ "-peer-file"
    ∧ getD (newConfigMap sgDb.name (genUID stEmpty) "").data peerFile = ""
    ∧ (newConfigMap sgDb.name (genUID stEmpty) "").ownerReferences
      = [{ apiVersion := "extensions/v1beta1", kind := "Deployment",
           name := sgDb.name, uid := genUID stEmpty }] :=
  onAdd_creates_empty_peer_record stEmpty sgDb (by decide) (by decide)

/-- C6: a spec that fails validation short-circuits `onAdd` before any
cluster mutation: the state is unchanged and no write operation is
issued. -/
theorem onAdd_validation_failure_no_mutation
    (st : ClusterState) (sg : ServiceGroup) (e : String)
    (hval : validateCustomObject sg = .error e) :
    onAdd st sg = (st, []) := by
  simp [onAdd, hval]

/-- C6 witness: a spec with replica count 0 is rejected and causes no
mutation of the empty cluster. -/
theorem onAdd_validation_failure_no_mutation_witness :
    validateCustomObject sgBadCount = .error "count"
    ∧ onAdd stEmpty sgBadCount = (stEmpty, []) :=
  ⟨by decide, onAdd_validation_failure_no_mutation stEmpty sgBadCount "count" (by decide)⟩

/-- C7: `onDelete` issues exactly one Deployment delete, named after the
group, with the background propagation policy, and no operation on any
ConfigMap: the stored config maps — in particular the group's
`<G>-peer-file` record — are unchanged. -/
theorem onDelete_deletes_workloadset_keeps_record
    (st : ClusterState) (sg : ServiceGroup) :
    (onDelete st sg).2
      = [Op.deleteDeployment sg.namespace_ sg.name DeletePolicy.background]
    ∧ (onDelete st sg).1.configMaps = st.configMaps
    ∧ findConfigMap (onDelete st sg).1 "default" (configMapName sg.name)
      = findConfigMap st "default" (configMapName sg.name) :=
  ⟨rfl, rfl, rfl⟩

/-- C8: the Deployment constructed by `onAdd` for a valid spec carries
the spec's replica count, the spec's container image, the startup
arguments `--group <effective group>` (the spec's group, or `default`
when the spec's group is empty), and a read-only mount of the record's
`peer-watch-file` key as the file `peer-ip`; the first write `onAdd`
issues is exactly the create of this Deployment. -/
theorem onAdd_deployment_carries_spec_fields
    (st : ClusterState) (sg : ServiceGroup)
    (hval : validateCustomObject sg = .ok ())
    (hfree : st.deployments.any
      (fun e => e.ns == "default" && e.dep.name == sg.name) = false) :
    (newDeployment sg).replicas = sg.spec.count
    ∧ (newDeployment sg).template.containers
      = [{ name := "habitat-service", image := sg.spec.image,
           args := ["--group", effectiveGroup sg],
           volumeMounts := [{ name := "config", mountPath := "/habitat-operator",
                              readOnly := true }] }]
    ∧ (newDeployment sg).template.volumes
      = [{ name := "config",
           configMap := some { localName := configMapName sg.name,
                               items := [{ key := peerFile, path := "peer-ip" }] } }]
    ∧ (sg.spec.habitat.group ≠ "" → effectiveGroup sg = sg.spec.habitat.group)
    ∧ (sg.spec.habitat.group = "" → effectiveGroup sg = "default")
    ∧ (onAdd st sg).2.head?
      = some (Op.createDeployment "default" (newDeployment sg) (genUID st)) := by
  refine ⟨rfl, rfl, rfl, ?_, ?_, ?_⟩
  · intro h; simp [effectiveGroup, h]
  · intro h; simp [effectiveGroup, h]
  · rw [onAdd_trace st sg hval hfree]; rfl

/-- C8 witness: the Deployment built for group `db` carries count 3,
image `core/postgresql`, arguments `--group db` and the read-only
peer-file mount, and is the first create issued. -/
theorem onAdd_deployment_carries_spec_fields_witness :
    (newDeployment sgDb).replicas = sgDb.spec.count
    ∧ (newDeployment sgDb).template.containers
      = [{ name := "habitat-service", image := sgDb.spec.image,
           args := ["--group", effectiveGroup sgDb],
           volumeMounts := [{ name := "config", mountPath := "/habitat-operator",
                              readOnly := true }] }]
    ∧ (newDeployment sgDb).template.volumes
      = [{ name := "config",
           configMap := some { localName := configMapName sgDb.name,
                               items := [{ key := peerFile, path := "peer-ip" }] } }]
    ∧ (sgDb.spec.habitat.group ≠ "" → effectiveGroup sgDb = sgDb.spec.habitat.group)
    ∧ (sgDb.spec.habitat.group = "" → effectiveGroup sgDb = "default")
    ∧ (onAdd stEmpty sgDb).2.head?
      = some (Op.createDeployment "default" (newDeployment sgDb) (genUID stEmpty)) :=
  onAdd_deployment_carries_spec_fields stEmpty sgDb (by decide) (by decide)

/-- C9: every write `onAdd` issues targets the fixed namespace
`default`, while `onDelete` targets the group's own recorded namespace —
so for a group whose namespace is not `default`, the created objects and
the deletion target live in different namespaces. -/
theorem onAdd_default_ns_onDelete_spec_ns
    (st st2 : ClusterState) (sg : ServiceGroup)
    (h : sg.namespace_ ≠ "default") :
    ((onAdd st sg).2.all (fun op => op.nsOf == "default") = true)
    ∧ (onDelete st2 sg).2
      = [Op.deleteDeployment sg.namespace_ sg.name DeletePolicy.background]
    ∧ Op.nsOf (Op.deleteDeployment sg.namespace_ sg.name DeletePolicy.background)
      ≠ "default" := by
  refine ⟨?_, rfl, by simpa [Op.nsOf] using h⟩
  unfold onAdd
  cases hv : validateCustomObject sg with
  | error e => simp
  | ok u =>
    cases hd : createDeployment st "default" (newDeployment sg) with
    | error e => simp [hd]
    | ok p => simp [hd, Op.nsOf]

/-- C9 witness: for the group recorded in namespace `staging`, the
creates target `default` and the delete targets `staging`. -/
theorem onAdd_default_ns_onDelete_spec_ns_witness :
    ((onAdd stEmpty sgStaging).2.all (fun op => op.nsOf == "default") = true)
    ∧ (onDelete stEmpty sgStaging).2
      = [Op.deleteDeployment sgStaging.namespace_ sgStaging.name DeletePolicy.background]
    ∧ Op.nsOf (Op.deleteDeployment sgStaging.namespace_ sgStaging.name
        DeletePolicy.background) ≠ "default" :=
  onAdd_default_ns_onDelete_spec_ns stEmpty stEmpty sgStaging (by decide)

/-- C10: `New` succeeds exactly when the client, the clientset, the
scheme and the logger are all present, and in that case it returns the
controller holding exactly the given config and logger. -/
theorem New_requires_all_inputs (config : Config) (logger : Option Logger) :
    (newOk (New config logger)
      = (config.habitatClient.isSome && config.kubernetesClientset.isSome
          && config.scheme.isSome && logger.isSome))
    ∧ (config.habitatClient.isSome = true → config.kubernetesClientset.isSome = true →
        config.scheme.isSome = true → logger.isSome = true →
        New config logger = .ok { config := config, logger := logger }) := by
  obtain ⟨hc, kc, sc⟩ := config
  cases hc <;> cases kc <;> cases sc <;> cases logger <;> simp [New, newOk]

/-- C10 witness: with all four inputs present, `New` returns the
controller holding exactly the given config and logger. -/
theorem New_requires_all_inputs_witness :
    New cfgFull (some ⟨0⟩) = .ok { config := cfgFull, logger := some ⟨0⟩ } :=
  (New_requires_all_inputs cfgFull (some ⟨0⟩)).2 (by decide) (by decide) (by decide)
    (by decide)
